import Mathlib

/-!
Verification of the native Windows entry point of flutterMarket
(`windows/runner/main.cpp`, function `wWinMain`).

The routine reads the environment variable `APP_CONFIG`, resolves a window
title from the substring before the first comma through a fixed lookup
table, creates a window at origin (10,10) with size (1280,720), runs the
OS message loop, releases COM and exits.  Wide strings are modelled as
`List Char`; the OS services the routine calls (environment lookup,
window creation, the message pump) are modelled as an explicit input
record, and the routine's observable actions as a trace record.
-/

namespace FlutterMarket

/-- Wide-character strings (`std::wstring`) are modelled as lists of characters. -/
abbrev WStr := List Char

/-- The hardcoded default title from `main.cpp` line 36:
`std::wstring windowTitle = L"EUR/USD Chart Viewer";`. -/
def defaultTitle : WStr := "EUR/USD Chart Viewer".data

/-- The `if`/`else if` chain of `main.cpp` lines 45-53: map a recognized key
literal to its display title, and pass any other key through verbatim. -/
def titleTable (titleKey : WStr) : WStr :=
  if titleKey = "EURUSD-m5".data then "EUR/USD-5m".data
  else if titleKey = "EURUSD-m30".data then "EUR/USD-30m".data
  else if titleKey = "EURUSD-h4".data then "EUR/USD-4h".data
  else titleKey

/-- Model of `configStr.find(L',')` followed by `configStr.substr(0, pos)`
(`main.cpp` lines 43-44): locate the first comma; when one exists, return
the part before it together with the part after it, otherwise `none`
(`std::wstring::npos`). -/
def findComma : WStr → Option (WStr × WStr)
  | [] => none
  | c :: cs =>
    if c = ',' then some ([], cs)
    else
      match findComma cs with
      | none => none
      | some (pre, post) => some (c :: pre, post)

/-- Title resolution of `main.cpp` lines 36-56: start from the default
title; when `APP_CONFIG` is set (`configEnv != nullptr`) and contains a
comma, replace it with the table lookup of the key before the comma. -/
def resolveTitle : Option WStr → WStr
  | none => defaultTitle
  | some configStr =>
    match findComma configStr with
    | none => defaultTitle
    | some (titleKey, _) => titleTable titleKey

/-- Exit status `EXIT_SUCCESS` returned on line 70. -/
def EXIT_SUCCESS : Nat := 0

/-- Exit status `EXIT_FAILURE` returned on line 59. -/
def EXIT_FAILURE : Nat := 1

/-- The environment the routine runs in: the value of `APP_CONFIG` (or
`none` when the variable is unset) and whether the window-creation call
`window.Create(...)` succeeds. -/
structure Sys where
  appConfig : Option WStr
  createSucceeds : Bool

/-- Observable actions of one run of `wWinMain`: whether `CoInitializeEx`
was called, the arguments of the `window.Create` call (title, origin,
size) when it was made, whether the message loop was entered, whether
`CoUninitialize` was called, and the returned exit status. -/
structure Trace where
  comInitCalled : Bool
  createCall : Option (WStr × (Int × Int) × (Int × Int))
  messageLoopEntered : Bool
  comReleased : Bool
  exitCode : Nat

/-- Model of `wWinMain` (`main.cpp` lines 12-71).  `CoInitializeEx` is
called unconditionally; the title is resolved from `APP_CONFIG`; the
window is created with the resolved title, origin `(10, 10)` and size
`(1280, 720)`.  If creation fails the routine returns `EXIT_FAILURE` at
once, without entering the message loop and without calling
`CoUninitialize`; otherwise it pumps messages until the quit message,
calls `CoUninitialize` and returns `EXIT_SUCCESS`. -/
def wWinMain (sys : Sys) : Trace :=
  let origin : Int × Int := (10, 10)
  let size : Int × Int := (1280, 720)
  let windowTitle := resolveTitle sys.appConfig
  if sys.createSucceeds then
    { comInitCalled := true
      createCall := some (windowTitle, origin, size)
      messageLoopEntered := true
      comReleased := true
      exitCode := EXIT_SUCCESS }
  else
    { comInitCalled := true
      createCall := some (windowTitle, origin, size)
      messageLoopEntered := false
      comReleased := false
      exitCode := EXIT_FAILURE }

/-- When the part before the comma contains no comma itself, `findComma`
splits exactly there. -/
theorem findComma_append (pre rest : WStr) (h : ',' ∉ pre) :
    findComma (pre ++ ',' :: rest) = some (pre, rest) := by
  induction pre with
  | nil => simp [findComma]
  | cons c cs ih =>
    have hc : c ≠ ',' := fun hceq => h (hceq ▸ List.mem_cons_self c cs)
    have hcs : ',' ∉ cs := fun hm => h (List.mem_cons_of_mem c hm)
    simp [findComma, hc, ih hcs]

/-- A string without a comma has no split. -/
theorem findComma_eq_none (s : WStr) (h : ',' ∉ s) :
    findComma s = none := by
  induction s with
  | nil => simp [findComma]
  | cons c cs ih =>
    have hc : c ≠ ',' := fun hceq => h (hceq ▸ List.mem_cons_self c cs)
    have hcs : ',' ∉ cs := fun hm => h (List.mem_cons_of_mem c hm)
    simp [findComma, hc, ih hcs]

/-- A configuration value whose first field is `pre` resolves to the table
lookup of `pre`. -/
theorem resolveTitle_split (pre rest : WStr) (h : ',' ∉ pre) :
    resolveTitle (some (pre ++ ',' :: rest)) = titleTable pre := by
  simp [resolveTitle, findComma_append pre rest h]

/-- C1: for every suffix string, a configuration value `"<key>,<suffix>"`
with a recognized key resolves through the fixed table: `EURUSD-m5` yields
`EUR/USD-5m`, `EURUSD-m30` yields `EUR/USD-30m`, and `EURUSD-h4` yields
`EUR/USD-4h`. -/
theorem C1_known_keys_mapped (s : WStr) :
    resolveTitle (some ("EURUSD-m5".data ++ ',' :: s)) = "EUR/USD-5m".data ∧
    resolveTitle (some ("EURUSD-m30".data ++ ',' :: s)) = "EUR/USD-30m".data ∧
    resolveTitle (some ("EURUSD-h4".data ++ ',' :: s)) = "EUR/USD-4h".data := by
  refine ⟨?_, ?_, ?_⟩
  · rw [resolveTitle_split "EURUSD-m5".data s (by decide)]; decide
  · rw [resolveTitle_split "EURUSD-m30".data s (by decide)]; decide
  · rw [resolveTitle_split "EURUSD-h4".data s (by decide)]; decide

/-- C2: when `APP_CONFIG` is unset, or set to a value with no comma, the
resolved title is the hardcoded default `"EUR/USD Chart Viewer"`. -/
theorem C2_default_title (cfg : WStr) (h : ',' ∉ cfg) :
    resolveTitle none = defaultTitle ∧ resolveTitle (some cfg) = defaultTitle := by
  exact ⟨rfl, by simp [resolveTitle, findComma_eq_none cfg h]⟩

/-- Witness for C2 at the concrete comma-free value `"nocomma"`. -/
theorem C2_default_title_witness :
    resolveTitle none = defaultTitle ∧
    resolveTitle (some "nocomma".data) = defaultTitle :=
  C2_default_title "nocomma".data (by decide)

/-- C3: a configuration value `"<key>,<suffix>"` whose key is none of the
three recognized literals resolves to the key itself, verbatim. -/
theorem C3_unknown_key_verbatim (key s : WStr) (h : ',' ∉ key)
    (h1 : key ≠ "EURUSD-m5".data) (h2 : key ≠ "EURUSD-m30".data)
    (h3 : key ≠ "EURUSD-h4".data) :
    resolveTitle (some (key ++ ',' :: s)) = key := by
  simp [resolveTitle, findComma_append key s h, titleTable, h1, h2, h3]

/-- Witness for C3: `"FOO,bar"` resolves to `"FOO"`. -/
theorem C3_unknown_key_verbatim_witness :
    resolveTitle (some ("FOO".data ++ ',' :: "bar".data)) = "FOO".data :=
  C3_unknown_key_verbatim "FOO".data "bar".data (by decide) (by decide)
    (by decide) (by decide)

/-- C4: the resolved title of a value containing a comma depends only on
the part before the first comma: two values with the same first field
resolve to the same title. -/
theorem C4_title_ignores_suffix (pre s1 s2 : WStr) (h : ',' ∉ pre) :
    resolveTitle (some (pre ++ ',' :: s1)) =
    resolveTitle (some (pre ++ ',' :: s2)) := by
  simp [resolveTitle, findComma_append pre s1 h, findComma_append pre s2 h]

/-- Witness for C4 at prefix `"EURUSD-m5"` and two distinct suffixes. -/
theorem C4_title_ignores_suffix_witness :
    resolveTitle (some ("EURUSD-m5".data ++ ',' :: "a".data)) =
    resolveTitle (some ("EURUSD-m5".data ++ ',' :: "b".data)) :=
  C4_title_ignores_suffix "EURUSD-m5".data "a".data "b".data (by decide)

/-- C5: the routine returns `EXIT_FAILURE` exactly when window creation
fails, and the message loop is entered exactly when it succeeds; in
particular a failing creation skips the loop and a succeeding one never
yields the failure status. -/
theorem C5_failure_exit (sys : Sys) :
    ((wWinMain sys).exitCode = EXIT_FAILURE ↔ sys.createSucceeds = false) ∧
    (wWinMain sys).messageLoopEntered = sys.createSucceeds := by
  cases sys with
  | mk cfg ok => cases ok <;> simp [wWinMain, EXIT_SUCCESS, EXIT_FAILURE]

/-- C6: `CoUninitialize` is called exactly on the normal exit path: COM is
released iff the routine returns the success status, so the
window-creation-failure return skips teardown. -/
theorem C6_teardown_iff_normal_exit (sys : Sys) :
    (wWinMain sys).comReleased = true ↔
    (wWinMain sys).exitCode = EXIT_SUCCESS := by
  cases sys with
  | mk cfg ok => cases ok <;> simp [wWinMain, EXIT_SUCCESS, EXIT_FAILURE]

/-- C7: for every environment (any `APP_CONFIG` value, set or unset, and
either creation outcome) the window-creation call is made with the
resolved title, origin `(10, 10)` and size `(1280, 720)`; title
resolution never changes the geometry arguments. -/
theorem C7_fixed_geometry (sys : Sys) :
    (wWinMain sys).createCall =
      some (resolveTitle sys.appConfig, (10, 10), (1280, 720)) := by
  cases sys with
  | mk cfg ok => cases ok <;> simp [wWinMain]

/-- C8: when window creation succeeds, the routine releases COM and
returns the success exit status `0`. -/
theorem C8_normal_exit (sys : Sys) (h : sys.createSucceeds = true) :
    (wWinMain sys).comReleased = true ∧ (wWinMain sys).exitCode = 0 := by
  cases sys with
  | mk cfg ok => cases ok <;> simp_all [wWinMain, EXIT_SUCCESS]

/-- Witness for C8 at an environment with no `APP_CONFIG` and a
succeeding creation call. -/
theorem C8_normal_exit_witness :
    (wWinMain ⟨none, true⟩).comReleased = true ∧
    (wWinMain ⟨none, true⟩).exitCode = 0 :=
  C8_normal_exit ⟨none, true⟩ rfl

/-- C9: a configuration value beginning with a comma resolves to the
empty key verbatim — the empty string — not to the default title. -/
theorem C9_empty_key (s : WStr) :
    resolveTitle (some (',' :: s)) = [] ∧ ([] : WStr) ≠ defaultTitle := by
  exact ⟨by simp [resolveTitle, findComma, titleTable], by decide⟩

/-- C10: table lookup is exact and case-sensitive: `"eurusd-m5,x"`
resolves to the key `"eurusd-m5"` verbatim, not to the mapped title
`"EUR/USD-5m"`. -/
theorem C10_case_sensitive :
    resolveTitle (some "eurusd-m5,x".data) = "eurusd-m5".data ∧
    resolveTitle (some "eurusd-m5,x".data) ≠ "EUR/USD-5m".data := by
  decide

end FlutterMarket
